import Mathlib

/-!
# Verification of the resume-tailor quality-assurance core

Shallow embedding of the scoring, fixing, indexing and retrieval components
of the resume-tailor repository, together with proofs of the specified
properties.

Modelling conventions:
* Go `int` is modelled as `Int` (no overflow modelling: all quantities in
  scope are bounded far below 2^63).
* Go `float64` arithmetic on small integer scores is modelled by exact
  integer/rational arithmetic; the conversion `int(...)` of a non-negative
  value is truncation toward zero, modelled with `Int.tdiv`.
* Go strings are Lean `String`s; `strings.Contains`, `strings.HasSuffix`
  and `strings.ToLower` are modelled by executable character-list
  functions below (`ToLower` in its ASCII fragment, which is all the
  source relies on).
* `encoding/json` parsing and file I/O are abstracted: a file delivered by
  a directory walk is modelled by a `WalkEntry` carrying the parse result
  (`Option Evaluation`), and a compiled regular expression is modelled by
  its match predicate and replacement function.
-/

namespace ResumeTailor

/-- Model of checking that the character list `s` starts with `pat`. -/
def charsStartWith : List Char → List Char → Bool
  | _, [] => true
  | [], _ :: _ => false
  | a :: as, b :: bs => a == b && charsStartWith as bs

/-- Model of substring search over character lists. -/
def charsContain (pat : List Char) : List Char → Bool
  | [] => pat.isEmpty
  | a :: as => charsStartWith (a :: as) pat || charsContain pat as

/-- Model of Go `strings.Contains s sub`. -/
def goContains (s sub : String) : Bool :=
  charsContain sub.data s.data

/-- Model of Go `strings.HasSuffix s suf`. -/
def goHasSuffix (s suf : String) : Bool :=
  charsStartWith s.data.reverse suf.data.reverse

/-- Model of Go `strings.ToLower` (ASCII fragment). -/
def goToLower (s : String) : String :=
  String.mk (s.data.map Char.toLower)

/-! ## Data model (`pkg/rag/types.go`) -/

/-- `rag.Violation`: a rule violation reported by the evaluator. -/
structure Violation where
  Rule : String
  Severity : String
  Location : String
  Fabricated : String
  EvidenceChecked : String
  FixApplied : String
  SuggestedFix : String
deriving DecidableEq

/-- `rag.WeakNumberIssue`: a weak quantification. -/
structure WeakNumberIssue where
  Location : String
  WeakNumber : String
  Suggested : String
  Fixed : Bool
deriving DecidableEq

/-- `rag.AntiFabricationScore`. -/
structure AntiFabricationScore where
  Score : Int
  Violations : List Violation
deriving DecidableEq

/-- `rag.WeakQuantificationsScore`. -/
structure WeakQuantificationsScore where
  Score : Int
  Issues : List WeakNumberIssue
deriving DecidableEq

/-- `rag.AccuracyScore`. -/
structure AccuracyScore where
  Score : Int
  VerifiedMetrics : List String
  CompanyDatesCorrect : Bool
  RoleTitlesCorrect : Bool
  YearsExpCorrect : Bool
deriving DecidableEq

/-- `rag.DomainClaimsScore`. -/
structure DomainClaimsScore where
  Score : Int
  Violations : List Violation
deriving DecidableEq

/-- `rag.ToneScore`. -/
structure ToneScore where
  Score : Int
  Feedback : List String
deriving DecidableEq

/-- `rag.ResumeScore`. -/
structure ResumeScore where
  Total : Int
  AntiFabrication : AntiFabricationScore
  WeakQuantifications : WeakQuantificationsScore
  Accuracy : AccuracyScore
deriving DecidableEq

/-- `rag.CoverLetterScore`. -/
structure CoverLetterScore where
  Total : Int
  DomainClaims : DomainClaimsScore
  Tone : ToneScore
deriving DecidableEq

/-- `rag.Scores`. -/
structure Scores where
  Resume : ResumeScore
  CoverLetter : CoverLetterScore
  Overall : Int
deriving DecidableEq

/-- `rag.JDMatch`. -/
structure JDMatch where
  Matched : List String
  Unmatched : List String
  FabricationsToMatch : List String
deriving DecidableEq

/-- `rag.Evaluation` (timestamps modelled as opaque naturals). -/
structure Evaluation where
  Company : String
  Role : String
  GeneratedAt : Nat
  EvaluatedAt : Nat
  Scores : Scores
  JDMatch : JDMatch
  Lessons : List String
  RAGContext : String
  Version : String
deriving DecidableEq

/-- `rag.IndexedEvaluation`: projection of an `Evaluation` used for search. -/
structure IndexedEvaluation where
  Company : String
  Role : String
  RoleLevel : String
  Industry : String
  EvaluatedAt : Nat
  OverallScore : Int
  CriticalViolations : Int
  LessonsLearned : List String
  RAGContext : String
  Path : String
deriving DecidableEq

/-- `rag.EvaluationIndex`. -/
structure EvaluationIndex where
  Evaluations : List IndexedEvaluation
  UpdatedAt : Nat
  Version : String
deriving DecidableEq

/-- `rag.RAGContext`: the retrieval output. -/
structure RAGContext where
  RelevantLessons : List String
  CommonViolations : List String
  SuccessfulPatterns : List String
  SimilarApplications : Nat
deriving DecidableEq

/-! ## Rule catalog (`pkg/scorer`, rules table) -/

/-- `scorer.Rule`: a scoring rule. -/
structure Rule where
  Name : String
  Category : String
  Severity : String
  Description : String
  Weight : Int
deriving DecidableEq

/-- The `scorer.ScoringRules` map, as an association list (keys are unique). -/
def scoringRulesList : List (String × Rule) :=
  [ ("FORBIDDEN_NUMBER_FABRICATION",
     { Name := "FORBIDDEN_NUMBER_FABRICATION", Category := "anti_fabrication",
       Severity := "critical",
       Description := "Numbers invented that do not exist in source achievement metrics",
       Weight := 30 }),
    ("FORBIDDEN_INDUSTRY_CLAIMS",
     { Name := "FORBIDDEN_INDUSTRY_CLAIMS", Category := "anti_fabrication",
       Severity := "critical",
       Description := "Industry claims not in achievement companies",
       Weight := 25 }),
    ("FORBIDDEN_TECHNICAL_DOMAIN_CLAIMS",
     { Name := "FORBIDDEN_TECHNICAL_DOMAIN_CLAIMS", Category := "anti_fabrication",
       Severity := "critical",
       Description := "Technical domain claims not in achievements",
       Weight := 25 }),
    ("FORBIDDEN_PATTERN_MATCHING",
     { Name := "FORBIDDEN_PATTERN_MATCHING", Category := "anti_fabrication",
       Severity := "critical",
       Description := "Claims that work mirrors JD domain candidate lacks",
       Weight := 20 }),
    ("SKILL_FABRICATION",
     { Name := "SKILL_FABRICATION", Category := "anti_fabrication",
       Severity := "major",
       Description := "Skills listed that are not in source skills data",
       Weight := 15 }),
    ("WEAK_QUANTIFICATIONS",
     { Name := "WEAK_QUANTIFICATIONS", Category := "anti_fabrication",
       Severity := "minor",
       Description := "Numbers under 10-20 that undermine credibility",
       Weight := 5 }),
    ("COMPANY_DATE_MISMATCH",
     { Name := "COMPANY_DATE_MISMATCH", Category := "accuracy",
       Severity := "critical",
       Description := "Company employment dates do not match source achievement data",
       Weight := 25 }),
    ("ROLE_TITLE_MISMATCH",
     { Name := "ROLE_TITLE_MISMATCH", Category := "accuracy",
       Severity := "critical",
       Description := "Role titles modified from source achievement data",
       Weight := 20 }),
    ("YEARS_EXPERIENCE_WRONG",
     { Name := "YEARS_EXPERIENCE_WRONG", Category := "accuracy",
       Severity := "critical",
       Description := "Years of experience does not match profile.years_experience",
       Weight := 25 }),
    ("METRIC_FABRICATION",
     { Name := "METRIC_FABRICATION", Category := "accuracy",
       Severity := "critical",
       Description := "Metrics not in achievement metrics",
       Weight := 20 }),
    ("TEMPORAL_IMPOSSIBILITY",
     { Name := "TEMPORAL_IMPOSSIBILITY", Category := "accuracy",
       Severity := "major",
       Description := "Claims X years experience with tool that did not exist for X years",
       Weight := 15 }),
    ("POOR_JD_ALIGNMENT",
     { Name := "POOR_JD_ALIGNMENT", Category := "quality",
       Severity := "minor",
       Description := "Resume does not emphasize JD-relevant achievements",
       Weight := 5 }),
    ("INAPPROPRIATE_TONE",
     { Name := "INAPPROPRIATE_TONE", Category := "quality",
       Severity := "minor",
       Description := "Cover letter tone does not match company culture signals",
       Weight := 5 }) ]

/-- Lookup in the `ScoringRules` map. -/
def ScoringRules (name : String) : Option Rule :=
  scoringRulesList.lookup name

/-- Go map indexing `ScoringRules[name].Weight`: a missing key yields the
zero value, whose `Weight` is `0`. -/
def mapIndexWeight (name : String) : Int :=
  match ScoringRules name with
  | some r => r.Weight
  | none => 0

/-! ## Scorer (`pkg/scorer`, `CalculateScores` and helpers) -/

/-- `scorer.calculateAntiFabricationScore`: start at 100, subtract the weight
of every violation whose rule is in the catalog with category
`anti_fabrication`, clamp below at 0. -/
def calculateAntiFabricationScore (violations : List Violation) : Int :=
  let score := violations.foldl
    (fun score v =>
      match ScoringRules v.Rule with
      | none => score
      | some rule => if rule.Category = "anti_fabrication" then score - rule.Weight else score)
    100
  if score < 0 then 0 else score

/-- `scorer.calculateWeakQuantificationsScore`: subtract the catalog weight
of `WEAK_QUANTIFICATIONS` once per issue, clamp below at 0. -/
def calculateWeakQuantificationsScore (issues : List WeakNumberIssue) : Int :=
  let score := issues.foldl (fun score _ => score - mapIndexWeight "WEAK_QUANTIFICATIONS") 100
  if score < 0 then 0 else score

/-- `scorer.calculateAccuracyScore`: subtract accuracy-category rule weights,
subtract the fixed mismatch weights for false flags, add the verified-metrics
bonus capped at 10, clamp to [0,100]. -/
def calculateAccuracyScore (violations : List Violation) (verifiedMetrics : List String)
    (companyDatesOK roleTitlesOK yearsExpOK : Bool) : Int :=
  let score := violations.foldl
    (fun score v =>
      match ScoringRules v.Rule with
      | none => score
      | some rule => if rule.Category = "accuracy" then score - rule.Weight else score)
    100
  let score := if companyDatesOK then score else score - mapIndexWeight "COMPANY_DATE_MISMATCH"
  let score := if roleTitlesOK then score else score - mapIndexWeight "ROLE_TITLE_MISMATCH"
  let score := if yearsExpOK then score else score - mapIndexWeight "YEARS_EXPERIENCE_WRONG"
  let metricsBonus : Int := verifiedMetrics.length
  let metricsBonus := if metricsBonus > 10 then 10 else metricsBonus
  let score := score + metricsBonus
  let score := if score < 0 then 0 else score
  if score > 100 then 100 else score

/-- `scorer.calculateDomainClaimsScore`: subtract the weight of every
violation whose rule is in the catalog (no category filter), clamp below
at 0. -/
def calculateDomainClaimsScore (violations : List Violation) : Int :=
  let score := violations.foldl
    (fun score v =>
      match ScoringRules v.Rule with
      | none => score
      | some rule => score - rule.Weight)
    100
  if score < 0 then 0 else score

/-- `scorer.CalculateScores`: the Go code combines the clamped category
scores with `float64` weights 0.50/0.20/0.30 and 0.70/0.30 and converts the
results with `int(...)`; this is modelled by exact integer arithmetic with
truncation toward zero (`Int.tdiv`). -/
def CalculateScores (antiFabViolations : List Violation) (weakIssues : List WeakNumberIssue)
    (accuracyViolations domainViolations : List Violation) (verifiedMetrics : List String)
    (companyDatesOK roleTitlesOK yearsExpOK : Bool) : Scores :=
  let antiFabScore := calculateAntiFabricationScore antiFabViolations
  let weakScore := calculateWeakQuantificationsScore weakIssues
  let accuracyScore := calculateAccuracyScore accuracyViolations verifiedMetrics
    companyDatesOK roleTitlesOK yearsExpOK
  let resumeTotal := Int.tdiv (50 * antiFabScore + 20 * weakScore + 30 * accuracyScore) 100
  let domainScore := calculateDomainClaimsScore domainViolations
  let coverLetterTotal := domainScore
  let overall := Int.tdiv (70 * resumeTotal + 30 * coverLetterTotal) 100
  { Resume :=
      { Total := resumeTotal,
        AntiFabrication := { Score := antiFabScore, Violations := antiFabViolations },
        WeakQuantifications := { Score := weakScore, Issues := weakIssues },
        Accuracy :=
          { Score := accuracyScore, VerifiedMetrics := verifiedMetrics,
            CompanyDatesCorrect := companyDatesOK, RoleTitlesCorrect := roleTitlesOK,
            YearsExpCorrect := yearsExpOK } },
    CoverLetter :=
      { Total := coverLetterTotal,
        DomainClaims := { Score := domainScore, Violations := domainViolations },
        Tone := { Score := 100, Feedback := [] } },
    Overall := overall }

/-! ## RAG-context serialization (`scorer.GenerateRAGContext`) -/

/-- Two's-complement wrap of an integer into `int32`, as performed by the Go
conversion `rune(i)` on a 64-bit `int`. -/
def int32Wrap (i : Int) : Int :=
  (i + 2 ^ 31) % 2 ^ 32 - 2 ^ 31

/-- Model of the Go conversion `string(rune(i))`: the UTF-8 string of the
code point `int32(i)` when it is a valid code point, and U+FFFD otherwise. -/
def goRuneString (i : Int) : String :=
  let r := int32Wrap i
  if 0 ≤ r ∧ (r < 0xd800 ∨ (0xdfff < r ∧ r < 0x110000)) then
    String.mk [Char.ofNat r.toNat]
  else
    String.mk [Char.ofNat 0xfffd]

/-- `scorer.GenerateRAGContext`: serializes company, role, overall score and
lessons into the persisted RAG-context string. The score is rendered with
`string(rune(scores.Overall))`. -/
def GenerateRAGContext (company role : String) (scores : Scores) (lessons : List String) :
    String :=
  let context := "Application: " ++ company ++ " - " ++ role ++ "\n"
  let context := context ++ "Overall Score: " ++ goRuneString scores.Overall ++ "/100\n\n"
  let context :=
    if lessons.length > 0 then
      lessons.foldl (fun c lesson => c ++ "- " ++ lesson ++ "\n") (context ++ "Key Issues:\n")
    else context
  let context :=
    if scores.Resume.AntiFabrication.Violations.length > 0 then
      scores.Resume.AntiFabrication.Violations.foldl
        (fun c v => c ++ "- " ++ v.Rule ++ ": " ++ v.Fabricated ++ "\n")
        (context ++ "\nFabrication Patterns to Avoid:\n")
    else context
  context

/-! ## Evaluator response type (`pkg/llm`, `EvaluationResponse`) -/

/-- `llm.EvaluationResponse`: the parsed result of one external evaluation
call. -/
structure EvaluationResponse where
  ResumeViolations : List Violation
  WeakQuantifications : List WeakNumberIssue
  AccuracyViolations : List Violation
  CoverLetterViolations : List Violation
  VerifiedMetrics : List String
  CompanyDatesCorrect : Bool
  RoleTitlesCorrect : Bool
  YearsExpCorrect : Bool
  JDMatch : JDMatch
  LessonsLearned : List String
deriving DecidableEq

/-! ## Fixer (`pkg/llm`, `Fixer` and `ApplyFixes`)

A compiled regular expression is abstracted by its `MatchString` predicate
(`Matches`) and its `ReplaceAllString` transformer (`ReplaceAll`); the
control flow of the fixing pass is embedded exactly. -/

/-- `llm.FixPattern`: a search-and-fix pattern. -/
structure FixPattern where
  Name : String
  Matches : String → Bool
  ReplaceAll : String → String
  RuleMatch : String

/-- `llm.Fixer`: the three pattern libraries. -/
structure Fixer where
  temporalImpossibilityPatterns : List FixPattern
  domainExpertPatterns : List FixPattern
  coverLetterPatterns : List FixPattern

/-- `llm.Fixer.applyTemporalFixes`: apply every matching temporal pattern in
order, tracking whether any fired. -/
def applyTemporalFixes (f : Fixer) (content : String) : String × Bool :=
  f.temporalImpossibilityPatterns.foldl
    (fun acc p => if p.Matches acc.1 then (p.ReplaceAll acc.1, true) else acc)
    (content, false)

/-- `llm.Fixer.applyDomainExpertFixes`. -/
def applyDomainExpertFixes (f : Fixer) (content : String) : String × Bool :=
  f.domainExpertPatterns.foldl
    (fun acc p => if p.Matches acc.1 then (p.ReplaceAll acc.1, true) else acc)
    (content, false)

/-- `llm.Fixer.applyCoverLetterWording`: apply every matching wording
pattern in order. -/
def applyCoverLetterWording (f : Fixer) (content : String) : String :=
  f.coverLetterPatterns.foldl
    (fun fixed p => if p.Matches fixed then p.ReplaceAll fixed else fixed)
    content

/-- `llm.Fixer.fixResumeViolations`: temporal fixes for violations whose
rule mentions TEMPORAL, domain-expert fixes for violations whose rule
mentions DOMAIN or whose fabricated text mentions Expert, then the wording
pass. One fix label is appended per violation whose pass fired. -/
def fixResumeViolations (f : Fixer) (resume : String) (evalResp : EvaluationResponse)
    (appliedFixes : List String) : String × List String :=
  let acc := evalResp.ResumeViolations.foldl
    (fun (acc : String × List String) violation =>
      if goContains violation.Rule "TEMPORAL" then
        let res := applyTemporalFixes f acc.1
        if res.2 then
          (res.1, acc.2 ++ ["Fixed temporal impossibility: " ++ violation.Fabricated])
        else (res.1, acc.2)
      else acc)
    (resume, appliedFixes)
  let acc := evalResp.ResumeViolations.foldl
    (fun (acc : String × List String) violation =>
      if goContains violation.Rule "DOMAIN" || goContains violation.Fabricated "Expert" then
        let res := applyDomainExpertFixes f acc.1
        if res.2 then
          (res.1, acc.2 ++ ["Fixed domain expert claim: " ++ violation.Fabricated])
        else (res.1, acc.2)
      else acc)
    acc
  (applyCoverLetterWording f acc.1, acc.2)

/-- `llm.Fixer.fixCoverLetterViolations`. -/
def fixCoverLetterViolations (f : Fixer) (coverLetter : String)
    (evalResp : EvaluationResponse) : String :=
  let fixed := evalResp.CoverLetterViolations.foldl
    (fun fixed violation =>
      if goContains violation.Rule "DOMAIN" || goContains violation.Fabricated "Expert" then
        (applyDomainExpertFixes f fixed).1
      else fixed)
    coverLetter
  applyCoverLetterWording f fixed

/-- `llm.Fixer.ApplyFixes`: fix the resume and the cover letter; the error
result (modelled as `Option String`, `none` being Go `nil`) is never set. -/
def ApplyFixes (f : Fixer) (resumeMD coverLetterMD : String)
    (evalResp : EvaluationResponse) : String × String × List String × Option String :=
  let resumeRes := fixResumeViolations f resumeMD evalResp []
  let fixedCoverLetter := fixCoverLetterViolations f coverLetterMD evalResp
  (resumeRes.1, fixedCoverLetter, resumeRes.2, none)

/-! ## Orchestration (`cmd/generate.go`) -/

/-- `cmd.calculateResumeScore`: 100 minus fixed per-severity deductions over
the resume violations, clamped below at 0. -/
def calculateResumeScore (evalResp : EvaluationResponse) : Int :=
  let score := evalResp.ResumeViolations.foldl
    (fun score v =>
      if v.Severity = "critical" then score - 30
      else if v.Severity = "major" then score - 15
      else if v.Severity = "minor" then score - 5
      else score)
    100
  if score < 0 then 0 else score

/-- `cmd.calculateCoverLetterScore`. -/
def calculateCoverLetterScore (evalResp : EvaluationResponse) : Int :=
  let score := evalResp.CoverLetterViolations.foldl
    (fun score v =>
      if v.Severity = "critical" then score - 30
      else if v.Severity = "major" then score - 15
      else if v.Severity = "minor" then score - 5
      else score)
    100
  if score < 0 then 0 else score

/-- `cmd.calculateOverallScore`: `(resumeScore * 7 / 10) + (coverScore * 3 / 10)`
with Go integer division (truncation toward zero). -/
def calculateOverallScore (evalResp : EvaluationResponse) : Int :=
  Int.tdiv (calculateResumeScore evalResp * 7) 10 +
    Int.tdiv (calculateCoverLetterScore evalResp * 3) 10

/-- The `rag.Scores` value built by `cmd.saveEvaluationToRAG` for the
persisted `Evaluation` record (lines 713 to 744 of `generate.go`). -/
def saveEvaluationScores (evalResp : EvaluationResponse) : Scores :=
  { Resume :=
      { Total := calculateResumeScore evalResp,
        AntiFabrication :=
          { Score := evalResp.ResumeViolations.length,
            Violations := evalResp.ResumeViolations },
        WeakQuantifications :=
          { Score := evalResp.WeakQuantifications.length,
            Issues := evalResp.WeakQuantifications },
        Accuracy :=
          { Score := 100,
            VerifiedMetrics := evalResp.VerifiedMetrics,
            CompanyDatesCorrect := evalResp.CompanyDatesCorrect,
            RoleTitlesCorrect := evalResp.RoleTitlesCorrect,
            YearsExpCorrect := evalResp.YearsExpCorrect } },
    CoverLetter :=
      { Total := calculateCoverLetterScore evalResp,
        DomainClaims :=
          { Score := evalResp.CoverLetterViolations.length,
            Violations := evalResp.CoverLetterViolations },
        Tone := { Score := 100, Feedback := [] } },
    Overall := calculateOverallScore evalResp }

/-- Total violation count checked at the decision point of
`cmd.runHybridEvaluationAndFix`. -/
def totalViolations (evalResp : EvaluationResponse) : Nat :=
  evalResp.ResumeViolations.length + evalResp.CoverLetterViolations.length

/-- Observable outcome of one run of `cmd.runHybridEvaluationAndFix`:
the final evaluation response, the draft texts as last written to storage,
and whether the fixing pass and the second external evaluation ran. -/
structure HybridOutcome where
  finalEval : EvaluationResponse
  writtenResume : String
  writtenCover : String
  fixerInvoked : Bool
  secondEvalRun : Bool
deriving DecidableEq

/-- `cmd.runHybridEvaluationAndFix`: if the first evaluation reports zero
violations, its response is returned as final and neither the fixer nor the
second evaluation runs; otherwise fixes are applied (written back only when
at least one fix label was produced, per `cmd.applyAndWriteFixes`) and the
second external evaluation result `eval2` becomes final. The two external
evaluation calls are abstracted as the inputs `eval1` and `eval2`. -/
def runHybridEvaluationAndFix (f : Fixer) (resumeMD coverLetterMD : String)
    (eval1 eval2 : EvaluationResponse) : HybridOutcome :=
  if totalViolations eval1 = 0 then
    { finalEval := eval1, writtenResume := resumeMD, writtenCover := coverLetterMD,
      fixerInvoked := false, secondEvalRun := false }
  else
    let res := ApplyFixes f resumeMD coverLetterMD eval1
    let written :=
      if res.2.2.1 = ([] : List String) then (resumeMD, coverLetterMD)
      else (res.1, res.2.1)
    { finalEval := eval2, writtenResume := written.1, writtenCover := written.2,
      fixerInvoked := true, secondEvalRun := true }

/-! ## Indexer (`pkg/rag/indexer.go` heuristics and `Index`) -/

/-- `rag.Indexer.inferIndustry`: industry from company name by
case-insensitive substring matching. -/
def inferIndustry (company : String) : String :=
  let lower := goToLower company
  if goContains lower "bank" || goContains lower "capital" then "fintech"
  else if goContains lower "tech" || goContains lower "soft" then "technology"
  else if goContains lower "cloud" || goContains lower "aws" then "cloud"
  else if goContains lower "pay" then "payments"
  else "unknown"

/-- `rag.Indexer.inferRoleLevel`: role level from the role title by
case-insensitive substring matching. -/
def inferRoleLevel (role : String) : String :=
  let lower := goToLower role
  if goContains lower "cto" || goContains lower "chief" then "CTO"
  else if goContains lower "vp" || goContains lower "vice president" then "VP"
  else if goContains lower "director" then "Director"
  else if goContains lower "senior" || goContains lower "sr" || goContains lower "principal" then
    "Senior IC"
  else if goContains lower "lead" || goContains lower "staff" then "IC"
  else "IC"

/-- One entry delivered by the directory walk in `rag.Indexer.Index`:
its full path, its base name, whether it is a directory, and the result of
`loadEvaluation` (reading and JSON-parsing the file), abstracted as
`Option Evaluation` (`none`: the file fails to load or parse). -/
structure WalkEntry where
  path : String
  name : String
  isDir : Bool
  parsed : Option Evaluation

/-- `rag.Indexer.processEvaluationFile`: skip directories and files not
named `*.evaluation.json`, skip files whose evaluation fails to load
(the error is swallowed), otherwise append an `IndexedEvaluation` and
increment the count. -/
def processEvaluationFile (entry : WalkEntry) (acc : List IndexedEvaluation × Nat) :
    List IndexedEvaluation × Nat :=
  if entry.isDir || !goHasSuffix entry.name ".evaluation.json" then acc
  else
    match entry.parsed with
    | none => acc
    | some eval =>
      let industry := inferIndustry eval.Company
      let roleLevel := inferRoleLevel eval.Role
      let criticalCount : Int :=
        ((eval.Scores.Resume.AntiFabrication.Violations.filter
            (fun v => v.Severity = "critical")).length : Int) +
        ((eval.Scores.CoverLetter.DomainClaims.Violations.filter
            (fun v => v.Severity = "critical")).length : Int)
      (acc.1 ++
        [{ Company := eval.Company, Role := eval.Role, RoleLevel := roleLevel,
           Industry := industry, EvaluatedAt := eval.EvaluatedAt,
           OverallScore := eval.Scores.Overall, CriticalViolations := criticalCount,
           LessonsLearned := eval.Lessons, RAGContext := eval.RAGContext,
           Path := entry.path }],
       acc.2 + 1)

/-- `rag.Indexer.Index`: walk the storage tree (modelled as the list of
entries the walk delivers, with no I/O errors), build the index from the
processed entries, and return the count together with the written index. -/
def Index (entries : List WalkEntry) (now : Nat) : Nat × EvaluationIndex :=
  let acc := entries.foldl (fun a e => processEvaluationFile e a) ([], 0)
  (acc.2, { Evaluations := acc.1, UpdatedAt := now, Version := "1.0.0" })

/-! ## Retriever (`pkg/rag/retriever.go`) -/

/-- `rag.Retriever.calculateSimilarity`: additive similarity of an indexed
record to the query role level. Go computes this in `float64`; the literals
0.5, 0.3 and 0.4 are modelled as exact rationals, which agrees with the
`float64` computation on every comparison the retriever performs. -/
def calculateSimilarity (eval : IndexedEvaluation) (roleLevel : String) : ℚ :=
  (if eval.RoleLevel = roleLevel then (0.5 : ℚ) else 0) +
    (if eval.OverallScore < 80 then (0.3 : ℚ) else 0) +
      (if eval.CriticalViolations > 0 then (0.4 : ℚ) else 0)

/-- `rag.Retriever.buildRAGContext`: deduplicated lessons, the frequency
table of known violation tokens found in the serialized RAG text (the Go
map iteration order is unspecified; it is modelled in the fixed token order
below), and the successful-pattern examples. -/
def buildRAGContext (similar : List IndexedEvaluation) : RAGContext :=
  let relevantLessons := similar.foldl
    (fun acc eval =>
      eval.LessonsLearned.foldl
        (fun acc2 lesson => if acc2.contains lesson then acc2 else acc2 ++ [lesson])
        acc)
    []
  let countFor (token : String) : Nat :=
    (similar.filter (fun eval => goContains eval.RAGContext token)).length
  let tokenLabels : List (String × String) :=
    [ ("FORBIDDEN_NUMBER_FABRICATION", "Number fabrication (inventing metrics/headcounts)"),
      ("FORBIDDEN_INDUSTRY_CLAIMS", "Industry fabrication (claiming industries not in experience)"),
      ("FORBIDDEN_TECHNICAL_DOMAIN_CLAIMS",
        "Domain fabrication (claiming technical domains not in experience)"),
      ("FORBIDDEN_PATTERN_MATCHING",
        "Pattern matching (claiming work mirrors domains candidate lacks)") ]
  let commonViolations := (tokenLabels.filter (fun p => 0 < countFor p.1)).map
    (fun p => p.2 ++ " (occurred " ++ toString (countFor p.1) ++ " times)")
  let successfulPatterns := (similar.filter (fun eval => eval.OverallScore ≥ 85)).map
    (fun eval =>
      eval.Company ++ " application scored " ++ toString eval.OverallScore ++ " - good example")
  { RelevantLessons := relevantLessons, CommonViolations := commonViolations,
    SuccessfulPatterns := successfulPatterns, SimilarApplications := 0 }

/-- `rag.Retriever.Retrieve`: load the index (abstracted as the input),
infer the query role level, keep the records with similarity above 0.3,
build the RAG context and record the similar-application count. -/
def Retrieve (index : EvaluationIndex) (role : String) : RAGContext :=
  let roleLevel := inferRoleLevel role
  let similar := index.Evaluations.filter
    (fun eval => (0.3 : ℚ) < calculateSimilarity eval roleLevel)
  let ragCtx := buildRAGContext similar
  { ragCtx with SimilarApplications := similar.length }

/-! ## Proof-side deduction functions and basic facts -/

/-- Deduction a violation contributes to a score that filters by catalog
category `cat`. -/
def catDeduct (cat : String) (v : Violation) : Int :=
  match ScoringRules v.Rule with
  | none => 0
  | some r => if r.Category = cat then r.Weight else 0

/-- Deduction a violation contributes when every catalog-known rule counts
(the behaviour of `calculateDomainClaimsScore`). -/
def knownDeduct (v : Violation) : Int :=
  match ScoringRules v.Rule with
  | none => 0
  | some r => r.Weight

/-- Fixed per-severity deduction used by the orchestrator scores in
`cmd/generate.go`. -/
def sevDeduct (v : Violation) : Int :=
  if v.Severity = "critical" then 30
  else if v.Severity = "major" then 15
  else if v.Severity = "minor" then 5
  else 0

/-- Total deduction for false accuracy flags (the catalog weights of the
three mismatch rules). -/
def flagDeduct (companyDatesOK roleTitlesOK yearsExpOK : Bool) : Int :=
  (if companyDatesOK then 0 else 25) + (if roleTitlesOK then 0 else 20) +
    (if yearsExpOK then 0 else 25)

/-- Modelled from the spec: a per-category score as the specification
sentence describes it, deducting exactly the weights of the violations
whose catalog category is the scored category, clamped below at 0. Used to
compare the specified behaviour with `calculateDomainClaimsScore`. -/
def specCategoryScore (cat : String) (violations : List Violation) : Int :=
  max 0 (100 - (violations.map (catDeduct cat)).sum)

lemma scoringRules_weight_nonneg {name : String} {r : Rule}
    (h : ScoringRules name = some r) : 0 ≤ r.Weight := by
  have hmem : (name, r) ∈ scoringRulesList := by
    rw [ScoringRules, List.lookup_eq_some_iff] at h
    obtain ⟨l₁, l₂, heq, _⟩ := h
    rw [heq]
    simp
  have hall : ∀ p ∈ scoringRulesList, 0 ≤ p.2.Weight := by decide
  exact hall _ hmem

lemma catDeduct_nonneg (cat : String) (v : Violation) : 0 ≤ catDeduct cat v := by
  unfold catDeduct
  cases h : ScoringRules v.Rule with
  | none => exact le_refl 0
  | some r =>
    by_cases hc : r.Category = cat
    · simpa [hc] using scoringRules_weight_nonneg h
    · simp [hc]

lemma knownDeduct_nonneg (v : Violation) : 0 ≤ knownDeduct v := by
  unfold knownDeduct
  cases h : ScoringRules v.Rule with
  | none => exact le_refl 0
  | some r => exact scoringRules_weight_nonneg h

lemma catDeduct_sum_nonneg (cat : String) (vs : List Violation) :
    0 ≤ (vs.map (catDeduct cat)).sum := by
  apply List.sum_nonneg
  intro x hx
  obtain ⟨v, _, rfl⟩ := List.mem_map.1 hx
  exact catDeduct_nonneg cat v

lemma knownDeduct_sum_nonneg (vs : List Violation) :
    0 ≤ (vs.map knownDeduct).sum := by
  apply List.sum_nonneg
  intro x hx
  obtain ⟨v, _, rfl⟩ := List.mem_map.1 hx
  exact knownDeduct_nonneg v

lemma catDeduct_of_unknown (cat : String) {v : Violation}
    (h : ScoringRules v.Rule = none) : catDeduct cat v = 0 := by
  unfold catDeduct
  rw [h]

lemma knownDeduct_of_unknown {v : Violation} (h : ScoringRules v.Rule = none) :
    knownDeduct v = 0 := by
  unfold knownDeduct
  rw [h]

/-! ## Characterizations of the Scorer category functions -/

lemma calculateAntiFabricationScore_eq (vs : List Violation) :
    calculateAntiFabricationScore vs =
      max 0 (100 - (vs.map (catDeduct "anti_fabrication")).sum) := by
  have key : ∀ (l : List Violation) (a : Int),
      l.foldl (fun score v =>
        match ScoringRules v.Rule with
        | none => score
        | some rule => if rule.Category = "anti_fabrication" then score - rule.Weight else score) a
        = a - (l.map (catDeduct "anti_fabrication")).sum := by
    intro l
    induction l with
    | nil => intro a; simp
    | cons hd tl ih =>
      intro a
      simp only [List.foldl_cons, List.map_cons, List.sum_cons]
      rw [ih]
      unfold catDeduct
      cases h : ScoringRules hd.Rule with
      | none => simp [h]
      | some r =>
        by_cases hc : r.Category = "anti_fabrication" <;> · simp [h, hc]; try ring
  simp only [calculateAntiFabricationScore]
  rw [key]
  split_ifs <;> omega

lemma calculateWeakQuantificationsScore_eq (issues : List WeakNumberIssue) :
    calculateWeakQuantificationsScore issues = max 0 (100 - 5 * (issues.length : Int)) := by
  have hw : mapIndexWeight "WEAK_QUANTIFICATIONS" = 5 := by decide
  have key : ∀ (l : List WeakNumberIssue) (a : Int),
      l.foldl (fun score _ => score - mapIndexWeight "WEAK_QUANTIFICATIONS") a
        = a - 5 * (l.length : Int) := by
    intro l
    induction l with
    | nil => intro a; simp
    | cons hd tl ih =>
      intro a
      simp only [List.foldl_cons, List.length_cons]
      rw [ih, hw]
      push_cast
      ring
  simp only [calculateWeakQuantificationsScore]
  rw [key]
  split_ifs <;> omega

lemma calculateAccuracyScore_eq (vs : List Violation) (vm : List String) (d t y : Bool) :
    calculateAccuracyScore vs vm d t y =
      min 100 (max 0 (100 - (vs.map (catDeduct "accuracy")).sum - flagDeduct d t y +
        min (vm.length : Int) 10)) := by
  have key : ∀ (l : List Violation) (a : Int),
      l.foldl (fun score v =>
        match ScoringRules v.Rule with
        | none => score
        | some rule => if rule.Category = "accuracy" then score - rule.Weight else score) a
        = a - (l.map (catDeduct "accuracy")).sum := by
    intro l
    induction l with
    | nil => intro a; simp
    | cons hd tl ih =>
      intro a
      simp only [List.foldl_cons, List.map_cons, List.sum_cons]
      rw [ih]
      unfold catDeduct
      cases h : ScoringRules hd.Rule with
      | none => simp [h]
      | some r =>
        by_cases hc : r.Category = "accuracy" <;> · simp [h, hc]; try ring
  have h1 : mapIndexWeight "COMPANY_DATE_MISMATCH" = 25 := by decide
  have h2 : mapIndexWeight "ROLE_TITLE_MISMATCH" = 20 := by decide
  have h3 : mapIndexWeight "YEARS_EXPERIENCE_WRONG" = 25 := by decide
  simp only [calculateAccuracyScore]
  rw [key, h1, h2, h3]
  unfold flagDeduct
  cases d <;> cases t <;> cases y <;> simp <;> split_ifs <;> omega

lemma calculateDomainClaimsScore_eq (vs : List Violation) :
    calculateDomainClaimsScore vs = max 0 (100 - (vs.map knownDeduct).sum) := by
  have key : ∀ (l : List Violation) (a : Int),
      l.foldl (fun score v =>
        match ScoringRules v.Rule with
        | none => score
        | some rule => score - rule.Weight) a
        = a - (l.map knownDeduct).sum := by
    intro l
    induction l with
    | nil => intro a; simp
    | cons hd tl ih =>
      intro a
      simp only [List.foldl_cons, List.map_cons, List.sum_cons]
      rw [ih]
      unfold knownDeduct
      cases h : ScoringRules hd.Rule with
      | none => simp [h]
      | some r => simp [h]; ring
  simp only [calculateDomainClaimsScore]
  rw [key]
  split_ifs <;> omega

lemma calculateResumeScore_eq (resp : EvaluationResponse) :
    calculateResumeScore resp =
      max 0 (100 - (resp.ResumeViolations.map sevDeduct).sum) := by
  have key : ∀ (l : List Violation) (a : Int),
      l.foldl (fun score v =>
        if v.Severity = "critical" then score - 30
        else if v.Severity = "major" then score - 15
        else if v.Severity = "minor" then score - 5
        else score) a
        = a - (l.map sevDeduct).sum := by
    intro l
    induction l with
    | nil => intro a; simp
    | cons hd tl ih =>
      intro a
      simp only [List.foldl_cons, List.map_cons, List.sum_cons]
      rw [ih]
      unfold sevDeduct
      split_ifs <;> ring
  simp only [calculateResumeScore]
  rw [key]
  split_ifs <;> omega

lemma calculateCoverLetterScore_eq (resp : EvaluationResponse) :
    calculateCoverLetterScore resp =
      max 0 (100 - (resp.CoverLetterViolations.map sevDeduct).sum) := by
  have key : ∀ (l : List Violation) (a : Int),
      l.foldl (fun score v =>
        if v.Severity = "critical" then score - 30
        else if v.Severity = "major" then score - 15
        else if v.Severity = "minor" then score - 5
        else score) a
        = a - (l.map sevDeduct).sum := by
    intro l
    induction l with
    | nil => intro a; simp
    | cons hd tl ih =>
      intro a
      simp only [List.foldl_cons, List.map_cons, List.sum_cons]
      rw [ih]
      unfold sevDeduct
      split_ifs <;> ring
  simp only [calculateCoverLetterScore]
  rw [key]
  split_ifs <;> omega

/-! ## Bounds -/

lemma tdiv100_bounds {x : Int} (h0 : 0 ≤ x) (h1 : x ≤ 10000) :
    0 ≤ Int.tdiv x 100 ∧ Int.tdiv x 100 ≤ 100 := by
  rw [Int.tdiv_eq_ediv h0 (by norm_num)]
  omega

/-! ## Sample inputs used by closed theorems -/

/-- Shorthand for a violation whose remaining fields are irrelevant. -/
def mkViolation (rule sev fab : String) : Violation :=
  { Rule := rule, Severity := sev, Location := "", Fabricated := fab,
    EvidenceChecked := "", FixApplied := "", SuggestedFix := "" }

def emptyJDMatch : JDMatch :=
  { Matched := [], Unmatched := [], FabricationsToMatch := [] }

/-- An evaluation response with a single critical fabrication violation. -/
def respWithFabrication : EvaluationResponse :=
  { ResumeViolations := [mkViolation "FORBIDDEN_NUMBER_FABRICATION" "critical" "invented metric"],
    WeakQuantifications := [], AccuracyViolations := [], CoverLetterViolations := [],
    VerifiedMetrics := [], CompanyDatesCorrect := true, RoleTitlesCorrect := true,
    YearsExpCorrect := true, JDMatch := emptyJDMatch, LessonsLearned := [] }

/-- An evaluation response with no violations at all. -/
def emptyResponse : EvaluationResponse :=
  { ResumeViolations := [], WeakQuantifications := [], AccuracyViolations := [],
    CoverLetterViolations := [], VerifiedMetrics := [], CompanyDatesCorrect := true,
    RoleTitlesCorrect := true, YearsExpCorrect := true, JDMatch := emptyJDMatch,
    LessonsLearned := [] }

def vPoorAlign : Violation := mkViolation "POOR_JD_ALIGNMENT" "minor" ""

def vUnknownRule : Violation := mkViolation "SOME_UNKNOWN_RULE" "minor" ""

/-- The Scores the Scorer computes from a final evaluation response, as the
orchestration-level claim pairs them. -/
def scorerScoresOf (resp : EvaluationResponse) : Scores :=
  CalculateScores resp.ResumeViolations resp.WeakQuantifications resp.AccuracyViolations
    resp.CoverLetterViolations resp.VerifiedMetrics resp.CompanyDatesCorrect
    resp.RoleTitlesCorrect resp.YearsExpCorrect

/-! ## Claim C1 -/

/-- C1: for every input to `CalculateScores`, the four category scores, the
two section totals and the overall score all lie in [0,100]. -/
theorem c1_all_scores_in_range (afv : List Violation) (wi : List WeakNumberIssue)
    (av dv : List Violation) (vm : List String) (d t y : Bool) :
    (0 ≤ (CalculateScores afv wi av dv vm d t y).Resume.AntiFabrication.Score ∧
      (CalculateScores afv wi av dv vm d t y).Resume.AntiFabrication.Score ≤ 100) ∧
    (0 ≤ (CalculateScores afv wi av dv vm d t y).Resume.WeakQuantifications.Score ∧
      (CalculateScores afv wi av dv vm d t y).Resume.WeakQuantifications.Score ≤ 100) ∧
    (0 ≤ (CalculateScores afv wi av dv vm d t y).Resume.Accuracy.Score ∧
      (CalculateScores afv wi av dv vm d t y).Resume.Accuracy.Score ≤ 100) ∧
    (0 ≤ (CalculateScores afv wi av dv vm d t y).CoverLetter.DomainClaims.Score ∧
      (CalculateScores afv wi av dv vm d t y).CoverLetter.DomainClaims.Score ≤ 100) ∧
    (0 ≤ (CalculateScores afv wi av dv vm d t y).Resume.Total ∧
      (CalculateScores afv wi av dv vm d t y).Resume.Total ≤ 100) ∧
    (0 ≤ (CalculateScores afv wi av dv vm d t y).CoverLetter.Total ∧
      (CalculateScores afv wi av dv vm d t y).CoverLetter.Total ≤ 100) ∧
    (0 ≤ (CalculateScores afv wi av dv vm d t y).Overall ∧
      (CalculateScores afv wi av dv vm d t y).Overall ≤ 100) := by
  obtain ⟨hA0, hA1⟩ : 0 ≤ calculateAntiFabricationScore afv ∧
      calculateAntiFabricationScore afv ≤ 100 := by
    rw [calculateAntiFabricationScore_eq]
    have := catDeduct_sum_nonneg "anti_fabrication" afv
    omega
  obtain ⟨hW0, hW1⟩ : 0 ≤ calculateWeakQuantificationsScore wi ∧
      calculateWeakQuantificationsScore wi ≤ 100 := by
    rw [calculateWeakQuantificationsScore_eq]
    omega
  obtain ⟨hC0, hC1⟩ : 0 ≤ calculateAccuracyScore av vm d t y ∧
      calculateAccuracyScore av vm d t y ≤ 100 := by
    rw [calculateAccuracyScore_eq]
    omega
  obtain ⟨hD0, hD1⟩ : 0 ≤ calculateDomainClaimsScore dv ∧
      calculateDomainClaimsScore dv ≤ 100 := by
    rw [calculateDomainClaimsScore_eq]
    have := knownDeduct_sum_nonneg dv
    omega
  obtain ⟨hR0, hR1⟩ := tdiv100_bounds
    (x := 50 * calculateAntiFabricationScore afv + 20 * calculateWeakQuantificationsScore wi +
      30 * calculateAccuracyScore av vm d t y) (by omega) (by omega)
  obtain ⟨hO0, hO1⟩ := tdiv100_bounds
    (x := 70 * Int.tdiv (50 * calculateAntiFabricationScore afv +
        20 * calculateWeakQuantificationsScore wi +
        30 * calculateAccuracyScore av vm d t y) 100 +
      30 * calculateDomainClaimsScore dv) (by omega) (by omega)
  simp only [CalculateScores]
  exact ⟨⟨hA0, hA1⟩, ⟨hW0, hW1⟩, ⟨hC0, hC1⟩, ⟨hD0, hD1⟩, ⟨hR0, hR1⟩, ⟨hD0, hD1⟩,
    ⟨hO0, hO1⟩⟩

/-! ## Claim C2 -/

/-- C2 counterexample: the Scores persisted by `saveEvaluationToRAG` differ
from `CalculateScores` applied to the same evaluation response: for a single
critical `FORBIDDEN_NUMBER_FABRICATION` resume violation the persisted
resume total is 70 and overall 79, while the Scorer computes 85 and 89. -/
theorem c2_counterexample :
    saveEvaluationScores respWithFabrication ≠ scorerScoresOf respWithFabrication ∧
    (saveEvaluationScores respWithFabrication).Resume.Total = 70 ∧
    (scorerScoresOf respWithFabrication).Resume.Total = 85 ∧
    (saveEvaluationScores respWithFabrication).Overall = 79 ∧
    (scorerScoresOf respWithFabrication).Overall = 89 ∧
    (saveEvaluationScores respWithFabrication).Resume.AntiFabrication.Score = 1 ∧
    (scorerScoresOf respWithFabrication).Resume.AntiFabrication.Score = 70 := by
  decide

/-- C2 (amended): the Scores persisted by `saveEvaluationToRAG` follow the
orchestrator's own severity-based formulas — section totals are 100 minus
30/15/5 per critical/major/minor violation clamped below at 0, the overall
score is `resume*7/10 + cover*3/10` in integer arithmetic, the
anti-fabrication, weak-quantification and domain-claims `Score` fields hold
the raw counts, and the accuracy and tone `Score` fields are the constant
100; `Scorer.CalculateScores` is not involved. -/
theorem c2_persisted_scores_amended (resp : EvaluationResponse) :
    (saveEvaluationScores resp).Resume.Total =
      max 0 (100 - (resp.ResumeViolations.map sevDeduct).sum) ∧
    (saveEvaluationScores resp).CoverLetter.Total =
      max 0 (100 - (resp.CoverLetterViolations.map sevDeduct).sum) ∧
    (saveEvaluationScores resp).Overall =
      Int.tdiv ((saveEvaluationScores resp).Resume.Total * 7) 10 +
        Int.tdiv ((saveEvaluationScores resp).CoverLetter.Total * 3) 10 ∧
    (saveEvaluationScores resp).Resume.AntiFabrication.Score =
      resp.ResumeViolations.length ∧
    (saveEvaluationScores resp).Resume.WeakQuantifications.Score =
      resp.WeakQuantifications.length ∧
    (saveEvaluationScores resp).Resume.Accuracy.Score = 100 ∧
    (saveEvaluationScores resp).CoverLetter.DomainClaims.Score =
      resp.CoverLetterViolations.length ∧
    (saveEvaluationScores resp).CoverLetter.Tone.Score = 100 := by
  refine ⟨?_, ?_, ?_, rfl, rfl, rfl, rfl, rfl⟩
  · simpa only [saveEvaluationScores] using calculateResumeScore_eq resp
  · simpa only [saveEvaluationScores] using calculateCoverLetterScore_eq resp
  · rfl

/-! ## Claim C3 -/

/-- C3 counterexample: `calculateDomainClaimsScore` deducts for violations
of every catalog category, so on a quality violation plus an accuracy
violation it yields 70, which differs from the category-filtered score of
every catalog category. -/
theorem c3_counterexample :
    calculateDomainClaimsScore
        [vPoorAlign, mkViolation "COMPANY_DATE_MISMATCH" "critical" ""] = 70 ∧
    specCategoryScore "anti_fabrication"
        [vPoorAlign, mkViolation "COMPANY_DATE_MISMATCH" "critical" ""] = 100 ∧
    specCategoryScore "accuracy"
        [vPoorAlign, mkViolation "COMPANY_DATE_MISMATCH" "critical" ""] = 75 ∧
    specCategoryScore "quality"
        [vPoorAlign, mkViolation "COMPANY_DATE_MISMATCH" "critical" ""] = 95 := by
  decide

/-- C3 (amended): the anti-fabrication score filters deductions by catalog
category and unknown rule identifiers change no score, but the domain-claims
score deducts the catalog weight of every known rule regardless of its
category. -/
theorem c3_category_scoring_amended (vs : List Violation) (v : Violation)
    (vm : List String) (d t y : Bool) (h : ScoringRules v.Rule = none) :
    calculateAntiFabricationScore vs = specCategoryScore "anti_fabrication" vs ∧
    calculateDomainClaimsScore vs = max 0 (100 - (vs.map knownDeduct).sum) ∧
    calculateAntiFabricationScore (v :: vs) = calculateAntiFabricationScore vs ∧
    calculateAccuracyScore (v :: vs) vm d t y = calculateAccuracyScore vs vm d t y ∧
    calculateDomainClaimsScore (v :: vs) = calculateDomainClaimsScore vs := by
  refine ⟨?_, calculateDomainClaimsScore_eq vs, ?_, ?_, ?_⟩
  · rw [specCategoryScore]
    exact calculateAntiFabricationScore_eq vs
  · rw [calculateAntiFabricationScore_eq, calculateAntiFabricationScore_eq]
    simp [catDeduct_of_unknown _ h]
  · rw [calculateAccuracyScore_eq, calculateAccuracyScore_eq]
    simp [catDeduct_of_unknown _ h]
  · rw [calculateDomainClaimsScore_eq, calculateDomainClaimsScore_eq]
    simp [knownDeduct_of_unknown h]

/-- Witness for the amended C3 at a concrete unknown-rule violation. -/
theorem c3_category_scoring_amended_witness :
    calculateAntiFabricationScore [vPoorAlign] =
      specCategoryScore "anti_fabrication" [vPoorAlign] ∧
    calculateDomainClaimsScore [vPoorAlign] =
      max 0 (100 - ([vPoorAlign].map knownDeduct).sum) ∧
    calculateAntiFabricationScore (vUnknownRule :: [vPoorAlign]) =
      calculateAntiFabricationScore [vPoorAlign] ∧
    calculateAccuracyScore (vUnknownRule :: [vPoorAlign]) [] true true true =
      calculateAccuracyScore [vPoorAlign] [] true true true ∧
    calculateDomainClaimsScore (vUnknownRule :: [vPoorAlign]) =
      calculateDomainClaimsScore [vPoorAlign] :=
  c3_category_scoring_amended [vPoorAlign] vUnknownRule [] true true true (by decide)

/-! ## Claim C5 -/

/-- C5: the accuracy score is 100 minus the accuracy-category rule
deductions, minus the fixed weight of each false flag, plus the
verified-metric bonus capped at 10, clamped to [0,100]; in particular 12
verified metrics with no violations and all flags true yield exactly 100. -/
theorem c5_accuracy_score_formula (vs : List Violation) (vm : List String) (d t y : Bool) :
    calculateAccuracyScore vs vm d t y =
      min 100 (max 0 (100 - (vs.map (catDeduct "accuracy")).sum - flagDeduct d t y +
        min (vm.length : Int) 10)) ∧
    calculateAccuracyScore []
        ["m1", "m2", "m3", "m4", "m5", "m6", "m7", "m8", "m9", "m10", "m11", "m12"]
        true true true = 100 :=
  ⟨calculateAccuracyScore_eq vs vm d t y, by decide⟩

/-! ## Claim C4 -/

def emptyFixer : Fixer :=
  { temporalImpossibilityPatterns := [], domainExpertPatterns := [],
    coverLetterPatterns := [] }

/-- C4: when the first evaluation reports empty resume and cover-letter
violation lists, the orchestrator returns that response unchanged as the
final evaluation, does not invoke the fixer and does not run the second
evaluation, and the final violation lists are the (empty) first-evaluation
lists. -/
theorem c4_zero_violations_short_circuit (f : Fixer) (resumeMD coverLetterMD : String)
    (eval1 eval2 : EvaluationResponse) (h1 : eval1.ResumeViolations = [])
    (h2 : eval1.CoverLetterViolations = []) :
    runHybridEvaluationAndFix f resumeMD coverLetterMD eval1 eval2 =
      { finalEval := eval1, writtenResume := resumeMD, writtenCover := coverLetterMD,
        fixerInvoked := false, secondEvalRun := false } ∧
    (runHybridEvaluationAndFix f resumeMD coverLetterMD eval1 eval2).finalEval.ResumeViolations
      = eval1.ResumeViolations ∧
    (runHybridEvaluationAndFix f resumeMD coverLetterMD eval1 eval2).finalEval.CoverLetterViolations
      = eval1.CoverLetterViolations := by
  have ht : totalViolations eval1 = 0 := by
    simp [totalViolations, h1, h2]
  refine ⟨?_, ?_, ?_⟩ <;> simp [runHybridEvaluationAndFix, ht]

/-- Witness for C4 at a concrete violation-free first evaluation. -/
theorem c4_zero_violations_short_circuit_witness :
    runHybridEvaluationAndFix emptyFixer "resume text" "cover text" emptyResponse emptyResponse =
      { finalEval := emptyResponse, writtenResume := "resume text",
        writtenCover := "cover text", fixerInvoked := false, secondEvalRun := false } ∧
    (runHybridEvaluationAndFix emptyFixer "resume text" "cover text" emptyResponse
      emptyResponse).finalEval.ResumeViolations = emptyResponse.ResumeViolations ∧
    (runHybridEvaluationAndFix emptyFixer "resume text" "cover text" emptyResponse
      emptyResponse).finalEval.CoverLetterViolations = emptyResponse.CoverLetterViolations :=
  c4_zero_violations_short_circuit emptyFixer "resume text" "cover text"
    emptyResponse emptyResponse rfl rfl

/-! ## Claim C10 -/

lemma patternsFold_no_match (ps : List FixPattern) (content : String)
    (h : ∀ p ∈ ps, p.Matches content = false) :
    ps.foldl (fun acc p => if p.Matches acc.1 then (p.ReplaceAll acc.1, true) else acc)
      (content, false) = (content, false) := by
  induction ps with
  | nil => rfl
  | cons hd tl ih =>
    have hhd : hd.Matches content = false := h hd (List.mem_cons_self hd tl)
    rw [List.foldl_cons]
    simp only [hhd, Bool.false_eq_true, if_false]
    exact ih fun p hp => h p (List.mem_cons_of_mem _ hp)

lemma wordingFold_no_match (ps : List FixPattern) (content : String)
    (h : ∀ p ∈ ps, p.Matches content = false) :
    ps.foldl (fun fixed p => if p.Matches fixed then p.ReplaceAll fixed else fixed) content
      = content := by
  induction ps with
  | nil => rfl
  | cons hd tl ih =>
    have hhd : hd.Matches content = false := h hd (List.mem_cons_self hd tl)
    rw [List.foldl_cons]
    simp only [hhd, Bool.false_eq_true, if_false]
    exact ih fun p hp => h p (List.mem_cons_of_mem _ hp)

lemma applyTemporalFixes_no_match (f : Fixer) (content : String)
    (h : ∀ p ∈ f.temporalImpossibilityPatterns, p.Matches content = false) :
    applyTemporalFixes f content = (content, false) :=
  patternsFold_no_match _ _ h

lemma applyDomainExpertFixes_no_match (f : Fixer) (content : String)
    (h : ∀ p ∈ f.domainExpertPatterns, p.Matches content = false) :
    applyDomainExpertFixes f content = (content, false) :=
  patternsFold_no_match _ _ h

lemma applyCoverLetterWording_no_match (f : Fixer) (content : String)
    (h : ∀ p ∈ f.coverLetterPatterns, p.Matches content = false) :
    applyCoverLetterWording f content = content :=
  wordingFold_no_match _ _ h

lemma fixResume_fold1_fixed (f : Fixer) (resume : String) (fixes : List String)
    (ht : ∀ p ∈ f.temporalImpossibilityPatterns, p.Matches resume = false)
    (l : List Violation) :
    l.foldl (fun (acc : String × List String) violation =>
      if goContains violation.Rule "TEMPORAL" then
        let res := applyTemporalFixes f acc.1
        if res.2 then
          (res.1, acc.2 ++ ["Fixed temporal impossibility: " ++ violation.Fabricated])
        else (res.1, acc.2)
      else acc) (resume, fixes) = (resume, fixes) := by
  induction l with
  | nil => rfl
  | cons hd tl ih =>
    rw [List.foldl_cons]
    by_cases hT : goContains hd.Rule "TEMPORAL" <;>
      simp only [hT, applyTemporalFixes_no_match f resume ht, Bool.false_eq_true,
        if_false, if_true] <;>
      exact ih

lemma fixResume_fold2_fixed (f : Fixer) (resume : String) (fixes : List String)
    (hd2 : ∀ p ∈ f.domainExpertPatterns, p.Matches resume = false)
    (l : List Violation) :
    l.foldl (fun (acc : String × List String) violation =>
      if goContains violation.Rule "DOMAIN" || goContains violation.Fabricated "Expert" then
        let res := applyDomainExpertFixes f acc.1
        if res.2 then
          (res.1, acc.2 ++ ["Fixed domain expert claim: " ++ violation.Fabricated])
        else (res.1, acc.2)
      else acc) (resume, fixes) = (resume, fixes) := by
  induction l with
  | nil => rfl
  | cons hd tl ih =>
    rw [List.foldl_cons]
    by_cases hT : goContains hd.Rule "DOMAIN" || goContains hd.Fabricated "Expert" <;>
      simp only [hT, applyDomainExpertFixes_no_match f resume hd2, Bool.false_eq_true,
        if_false, if_true] <;>
      exact ih

lemma fixCoverLetter_fold_fixed (f : Fixer) (cover : String)
    (hd2 : ∀ p ∈ f.domainExpertPatterns, p.Matches cover = false)
    (l : List Violation) :
    l.foldl (fun fixed violation =>
      if goContains violation.Rule "DOMAIN" || goContains violation.Fabricated "Expert" then
        (applyDomainExpertFixes f fixed).1
      else fixed) cover = cover := by
  induction l with
  | nil => rfl
  | cons hd tl ih =>
    rw [List.foldl_cons]
    by_cases hT : goContains hd.Rule "DOMAIN" || goContains hd.Fabricated "Expert" <;>
      simp only [hT, applyDomainExpertFixes_no_match f cover hd2, Bool.false_eq_true,
        if_false, if_true] <;>
      exact ih

/-- C10: `ApplyFixes` never returns an error (the Go error result is
unconditionally `nil`), and when no pattern matches either draft it returns
both drafts unchanged with an empty applied-fix list. -/
theorem c10_applyfixes_total (f : Fixer) (resumeMD coverLetterMD : String)
    (resp : EvaluationResponse) :
    (ApplyFixes f resumeMD coverLetterMD resp).2.2.2 = none ∧
    ((∀ p ∈ f.temporalImpossibilityPatterns ++ f.domainExpertPatterns ++
        f.coverLetterPatterns,
        p.Matches resumeMD = false ∧ p.Matches coverLetterMD = false) →
      ApplyFixes f resumeMD coverLetterMD resp = (resumeMD, coverLetterMD, [], none)) := by
  constructor
  · rfl
  · intro h
    have ht : ∀ p ∈ f.temporalImpossibilityPatterns, p.Matches resumeMD = false :=
      fun p hp => (h p (by simp [hp])).1
    have hdR : ∀ p ∈ f.domainExpertPatterns, p.Matches resumeMD = false :=
      fun p hp => (h p (by simp [hp])).1
    have hcR : ∀ p ∈ f.coverLetterPatterns, p.Matches resumeMD = false :=
      fun p hp => (h p (by simp [hp])).1
    have hdC : ∀ p ∈ f.domainExpertPatterns, p.Matches coverLetterMD = false :=
      fun p hp => (h p (by simp [hp])).2
    have hcC : ∀ p ∈ f.coverLetterPatterns, p.Matches coverLetterMD = false :=
      fun p hp => (h p (by simp [hp])).2
    have hres : fixResumeViolations f resumeMD resp [] = (resumeMD, []) := by
      simp only [fixResumeViolations]
      rw [fixResume_fold1_fixed f resumeMD [] ht, fixResume_fold2_fixed f resumeMD [] hdR,
        applyCoverLetterWording_no_match f resumeMD hcR]
    have hcov : fixCoverLetterViolations f coverLetterMD resp = coverLetterMD := by
      simp only [fixCoverLetterViolations]
      rw [fixCoverLetter_fold_fixed f coverLetterMD hdC,
        applyCoverLetterWording_no_match f coverLetterMD hcC]
    simp only [ApplyFixes, hres, hcov]

/-- A pattern that matches nothing, for the C10 witness. -/
def noopPattern : FixPattern :=
  { Name := "noop", Matches := fun _ => false, ReplaceAll := fun s => s, RuleMatch := "" }

def noopFixer : Fixer :=
  { temporalImpossibilityPatterns := [noopPattern], domainExpertPatterns := [noopPattern],
    coverLetterPatterns := [noopPattern] }

/-- Witness for C10 at a concrete fixer whose patterns match nothing. -/
theorem c10_applyfixes_total_witness :
    (ApplyFixes noopFixer "resume text" "cover text" respWithFabrication).2.2.2 = none ∧
    ApplyFixes noopFixer "resume text" "cover text" respWithFabrication =
      ("resume text", "cover text", [], none) := by
  obtain ⟨h1, h2⟩ := c10_applyfixes_total noopFixer "resume text" "cover text"
    respWithFabrication
  refine ⟨h1, h2 ?_⟩
  intro p hp
  have : p = noopPattern := by
    simp only [noopFixer] at hp
    simpa using hp
  rw [this]
  exact ⟨rfl, rfl⟩

/-! ## Claim C6 -/

/-- C6: the similarity of an indexed record is the sum of the 0.5 role-level
bonus, the 0.3 low-score bonus and the 0.4 critical-violation bonus, and the
`SimilarApplications` count returned by `Retrieve` equals the number of
indexed records whose similarity to the query is strictly above 0.3. -/
theorem c6_retrieve_similar_count (index : EvaluationIndex) (role : String) :
    (Retrieve index role).SimilarApplications =
      index.Evaluations.countP
        (fun eval => (0.3 : ℚ) < calculateSimilarity eval (inferRoleLevel role)) ∧
    ∀ (eval : IndexedEvaluation) (roleLevel : String),
      calculateSimilarity eval roleLevel =
        (if eval.RoleLevel = roleLevel then (0.5 : ℚ) else 0) +
          (if eval.OverallScore < 80 then (0.3 : ℚ) else 0) +
            (if eval.CriticalViolations > 0 then (0.4 : ℚ) else 0) := by
  constructor
  · simp only [Retrieve]
    rw [List.countP_eq_length_filter]
  · intro eval roleLevel
    rfl

/-! ## Claim C7 -/

/-- A walk entry that `Index` accepts: a non-directory named
`*.evaluation.json` whose contents parse as an `Evaluation`. -/
def isValidRecord (entry : WalkEntry) : Bool :=
  !entry.isDir && goHasSuffix entry.name ".evaluation.json" && entry.parsed.isSome

lemma processEvaluationFile_spec (e : WalkEntry) (acc : List IndexedEvaluation × Nat) :
    (processEvaluationFile e acc).1.length =
      acc.1.length + (if isValidRecord e then 1 else 0) ∧
    (processEvaluationFile e acc).2 = acc.2 + (if isValidRecord e then 1 else 0) := by
  rcases acc with ⟨l, n⟩
  cases hd : e.isDir <;> cases hs : goHasSuffix e.name ".evaluation.json" <;>
    cases hp : e.parsed <;>
      simp [processEvaluationFile, isValidRecord, hd, hs, hp]

lemma index_fold_spec (entries : List WalkEntry) :
    ∀ (l : List IndexedEvaluation) (n : Nat),
      ((entries.foldl (fun a e => processEvaluationFile e a) (l, n)).1.length =
        l.length + entries.countP isValidRecord) ∧
      ((entries.foldl (fun a e => processEvaluationFile e a) (l, n)).2 =
        n + entries.countP isValidRecord) := by
  induction entries with
  | nil => intro l n; simp
  | cons hd tl ih =>
    intro l n
    rw [List.foldl_cons]
    obtain ⟨h1, h2⟩ := processEvaluationFile_spec hd (l, n)
    have hih := ih (processEvaluationFile hd (l, n)).1 (processEvaluationFile hd (l, n)).2
    rw [Prod.mk.eta] at hih
    rw [List.countP_cons]
    obtain ⟨hih1, hih2⟩ := hih
    constructor
    · rw [hih1, h1]
      by_cases hv : isValidRecord hd <;> (simp [hv]; try omega)
    · rw [hih2, h2]
      by_cases hv : isValidRecord hd <;> (simp [hv]; try omega)

/-- C7: `Index` returns the number of walk entries that are valid evaluation
records, and the written index has exactly that many entries — entries that
fail to parse (or are not record files) are skipped without affecting the
rest. -/
theorem c7_index_skips_invalid_records (entries : List WalkEntry) (now : Nat) :
    (Index entries now).1 = entries.countP isValidRecord ∧
    (Index entries now).2.Evaluations.length = (Index entries now).1 := by
  obtain ⟨h1, h2⟩ := index_fold_spec entries [] 0
  simp only [Index]
  constructor
  · simpa using h2
  · simp only [List.length_nil, Nat.zero_add] at h1 h2
    rw [h1, h2]

/-! ## Claim C8 -/

/-- C8: the similarity computed for any indexed record takes one of the
eight values 0, 0.3, 0.4, 0.5, 0.7, 0.8, 0.9, 1.2, and in particular is
bounded above by 1.2. -/
theorem c8_similarity_eight_values (eval : IndexedEvaluation) (roleLevel : String) :
    calculateSimilarity eval roleLevel ∈
      ({0, 0.3, 0.4, 0.5, 0.7, 0.8, 0.9, 1.2} : Set ℚ) ∧
    calculateSimilarity eval roleLevel ≤ 1.2 := by
  by_cases h1 : eval.RoleLevel = roleLevel <;>
    by_cases h2 : eval.OverallScore < 80 <;>
      by_cases h3 : eval.CriticalViolations > 0 <;>
        refine ⟨?_, ?_⟩ <;>
          simp only [calculateSimilarity, h1, h2, h3, if_true, if_false, Set.mem_insert_iff,
            Set.mem_singleton_iff] <;>
          norm_num

/-! ## Claim C9 -/

lemma goRune_ne_repr : ∀ n : Nat, n < 101 → String.mk [Char.ofNat n] ≠ Nat.repr n := by
  decide

lemma int32Wrap_small {i : Int} (h0 : 0 ≤ i) (h1 : i ≤ 100) : int32Wrap i = i := by
  unfold int32Wrap
  omega

lemma goRuneString_small {i : Int} (h0 : 0 ≤ i) (h1 : i ≤ 100) :
    goRuneString i = String.mk [Char.ofNat i.toNat] := by
  simp only [goRuneString]
  rw [int32Wrap_small h0 h1]
  rw [if_pos]
  exact ⟨h0, Or.inl (by omega)⟩

lemma keyIssuesFold_shift (lessons : List String) (c : String) :
    lessons.foldl (fun c lesson => c ++ "- " ++ lesson ++ "\n") c =
      c ++ lessons.foldl (fun c lesson => c ++ "- " ++ lesson ++ "\n") "" := by
  induction lessons generalizing c with
  | nil => simp
  | cons hd tl ih =>
    rw [List.foldl_cons, List.foldl_cons, ih, ih ("" ++ "- " ++ hd ++ "\n")]
    simp [String.append_assoc]

lemma fabViolationsFold_shift (vs : List Violation) (c : String) :
    vs.foldl (fun c v => c ++ "- " ++ v.Rule ++ ": " ++ v.Fabricated ++ "\n") c =
      c ++ vs.foldl (fun c v => c ++ "- " ++ v.Rule ++ ": " ++ v.Fabricated ++ "\n") "" := by
  induction vs generalizing c with
  | nil => simp
  | cons hd tl ih =>
    rw [List.foldl_cons, List.foldl_cons, ih,
      ih ("" ++ "- " ++ hd.Rule ++ ": " ++ hd.Fabricated ++ "\n")]
    simp [String.append_assoc]

/-- C9: the serialized RAG context renders the overall score via
`string(rune(scores.Overall))` — the string whose single character has the
code point of the score — so the score line never carries the decimal digit
representation of the score. -/
theorem c9_rag_score_rendering (company role : String) (scores : Scores)
    (lessons : List String) (h0 : 0 ≤ scores.Overall) (h1 : scores.Overall ≤ 100) :
    (∃ rest, GenerateRAGContext company role scores lessons =
      "Application: " ++ company ++ " - " ++ role ++ "\n" ++ "Overall Score: " ++
        goRuneString scores.Overall ++ "/100\n\n" ++ rest) ∧
    goRuneString scores.Overall ≠ Int.repr scores.Overall := by
  constructor
  · simp only [GenerateRAGContext]
    by_cases hv : scores.Resume.AntiFabrication.Violations.length > 0 <;>
      by_cases hl : lessons.length > 0
    · rw [if_pos hv, if_pos hl, keyIssuesFold_shift, fabViolationsFold_shift]
      refine ⟨"Key Issues:\n" ++
        lessons.foldl (fun c lesson => c ++ "- " ++ lesson ++ "\n") "" ++
        "\nFabrication Patterns to Avoid:\n" ++
        scores.Resume.AntiFabrication.Violations.foldl
          (fun c v => c ++ "- " ++ v.Rule ++ ": " ++ v.Fabricated ++ "\n") "", ?_⟩
      simp only [String.append_assoc, String.empty_append, String.append_empty]
    · rw [if_pos hv, if_neg hl, fabViolationsFold_shift]
      refine ⟨"\nFabrication Patterns to Avoid:\n" ++
        scores.Resume.AntiFabrication.Violations.foldl
          (fun c v => c ++ "- " ++ v.Rule ++ ": " ++ v.Fabricated ++ "\n") "", ?_⟩
      simp only [String.append_assoc, String.empty_append, String.append_empty]
    · rw [if_neg hv, if_pos hl, keyIssuesFold_shift]
      refine ⟨"Key Issues:\n" ++
        lessons.foldl (fun c lesson => c ++ "- " ++ lesson ++ "\n") "", ?_⟩
      simp only [String.append_assoc, String.empty_append, String.append_empty]
    · rw [if_neg hv, if_neg hl]
      exact ⟨"", by
        simp only [String.append_assoc, String.empty_append, String.append_empty]⟩
  · obtain ⟨m, hm⟩ := Int.eq_ofNat_of_zero_le h0
    rw [hm] at h1 ⊢
    rw [goRuneString_small (by positivity) h1]
    simp only [Int.toNat_ofNat]
    have hm100 : m < 101 := by exact_mod_cast Int.lt_add_one_iff.mpr h1
    exact fun hEq => goRune_ne_repr m hm100 hEq

/-- A concrete Scores value for the C9 witness. -/
def sampleScores : Scores :=
  { Resume :=
      { Total := 85,
        AntiFabrication := { Score := 70, Violations := [] },
        WeakQuantifications := { Score := 100, Issues := [] },
        Accuracy :=
          { Score := 100, VerifiedMetrics := [], CompanyDatesCorrect := true,
            RoleTitlesCorrect := true, YearsExpCorrect := true } },
    CoverLetter :=
      { Total := 100, DomainClaims := { Score := 100, Violations := [] },
        Tone := { Score := 100, Feedback := [] } },
    Overall := 85 }

/-- Witness for C9 at a concrete application with overall score 85. -/
theorem c9_rag_score_rendering_witness :
    (∃ rest, GenerateRAGContext "Acme" "Senior Engineer" sampleScores [] =
      "Application: " ++ "Acme" ++ " - " ++ "Senior Engineer" ++ "\n" ++ "Overall Score: " ++
        goRuneString sampleScores.Overall ++ "/100\n\n" ++ rest) ∧
    goRuneString sampleScores.Overall ≠ Int.repr sampleScores.Overall :=
  c9_rag_score_rendering "Acme" "Senior Engineer" sampleScores [] (by decide) (by decide)

end ResumeTailor
